import Mathlib

/-!
Verification development for the remote-unlock core of debuntu-tools
(`debuntu_tools/remote_unlock.py`).

The executable Python code is shallowly embedded as Lean functions:

* `ServerDetails` and `ServerDetails.matchHeader` embed the fingerprint
  class and its `match_header` method.
* `classifyPreBoot` and `waitForPreBootAux` embed the body of
  `EncryptedSystem.wait_for_pre_boot`: the per-iteration classification
  chain and the timed retry loop.  Time is modelled discretely: each
  iteration probe takes `duration` time units, and the trailing
  `iteration_timer.sleep(retry_interval)` pads the iteration to at least
  `retry_interval` (the sleep subtracts the time already spent in the
  iteration, as the library documents), so a full iteration takes
  `max duration retry_interval`.  Elapsed time is measured from the start
  of the outer wait.
* `classifyPostBoot` and `waitForPostBootAux` embed
  `EncryptedSystem.wait_for_post_boot` the same way.
* `offer_password` embeds `EncryptedSystem.offer_password`, returning the
  delivery outcome together with the list of remote actions performed.
* `encryptedSystemScope` embeds `__enter__`/`__exit__` around an arbitrary
  session body, with the filesystem as a set of existing paths.
* `store_host_keys` embeds `EncryptedSystem.store_host_keys`; the mapping
  `config` is the cached configuration dictionary of the session (a lazy
  property in the source, computed once and never refreshed), while the
  `HostKeyFile` state is the INI file written on disk.
* `find_process_id`, `kill_interactive_prompt_target` and
  `kill_emergency_shell_target` embed the process-lookup helper and the
  process ids targeted by the two kill methods.

Python string primitives (`str.split()`, `str.splitlines()`, `.lower()`,
substring test, `int()` on digit strings) are embedded as structurally
recursive functions on character lists so that every definition evaluates
inside the kernel.
-/

namespace RemoteUnlock

/-- Lower-case a character list, embedding Python `str.lower()` for the
ASCII data handled here. -/
def lowerChars (l : List Char) : List Char := l.map Char.toLower

/-- Check whether the first list is a leading segment of the second. -/
def startsWithSeq : List Char → List Char → Bool
  | [], _ => true
  | _ :: _, [] => false
  | p :: ps, c :: cs => p == c && startsWithSeq ps cs

/-- Check whether `pat` occurs contiguously inside the second list,
embedding the Python `in` test on strings. -/
def containsSeq (pat : List Char) : List Char → Bool
  | [] => pat.isEmpty
  | c :: cs => startsWithSeq pat (c :: cs) || containsSeq pat cs

/-- Split on whitespace runs, dropping empty tokens: the accumulator holds
the current token reversed.  This embeds Python `str.split()` with no
arguments. -/
def splitWsAux : List Char → List Char → List (List Char)
  | [], cur => if cur.isEmpty then [] else [cur.reverse]
  | c :: cs, cur =>
    if c.isWhitespace then
      if cur.isEmpty then splitWsAux cs [] else cur.reverse :: splitWsAux cs []
    else splitWsAux cs (c :: cur)

/-- Python `line.split()`: whitespace-separated tokens of a string. -/
def pySplit (s : String) : List String := (splitWsAux s.data []).map List.asString

/-- Split a string at newline characters.  This embeds Python
`str.splitlines()` for newline-terminated command output; unlike Python it
keeps a final empty line, which carries no tokens and therefore never
affects the process scan below. -/
def splitLinesAux : List Char → List Char → List (List Char)
  | [], cur => [cur.reverse]
  | c :: cs, cur =>
    if c == '\n' then cur.reverse :: splitLinesAux cs [] else splitLinesAux cs (c :: cur)

/-- The lines of a captured output string. -/
def pyLines (s : String) : List String := (splitLinesAux s.data []).map List.asString

/-- Decimal value of a digit string, embedding Python `int()` on strings
that passed `str.isdigit()`. -/
def charsToNatAux : List Char → Nat → Nat
  | [], acc => acc
  | c :: cs, acc => charsToNatAux cs (acc * 10 + (c.toNat - 48))

/-- Python truthiness of an optional string: `None` and the empty string
are falsy. -/
def pyTruthy : Option String → Bool
  | none => false
  | some s => s != ""

/-- Embedding of the `ServerDetails` fingerprint class: SSH server header
plus the set of host-key fingerprints found by ssh-keyscan. -/
structure ServerDetails where
  header : String
  host_keys : Finset String
deriving DecidableEq

/-- Embedding of `ServerDetails.match_header`: truthy exactly when the
header is non-empty and contains the given substring case-insensitively. -/
def ServerDetails.matchHeader (s : ServerDetails) (sub : String) : Bool :=
  (s.header != "") && containsSeq (lowerChars sub.data) (lowerChars s.header.data)

/-- The session parameters consulted by `wait_for_pre_boot`: the known
pre-boot host keys from the configuration, the `interactive` flag, and the
`connect_timeout` and `retry_interval` timing options. -/
structure PreBootConfig where
  knownKeys : Finset String
  interactive : Bool
  connectTimeout : Nat
  retryInterval : Nat
deriving DecidableEq

/-- One iteration of the pre-boot wait loop as observed from outside: the
fingerprint returned by `scan_ssh_server`, how long the probe took, and
the answer the operator would give to `prompt_for_confirmation`. -/
structure PreProbe where
  server : ServerDetails
  duration : Nat
  operatorConfirms : Bool
deriving DecidableEq

/-- Result of one classification pass inside `wait_for_pre_boot`:
`confirm` is a `break` out of the loop returning the fingerprint, `abort`
raises `UnlockAbortedError`, `retry` falls through to the timeout check. -/
inductive PreStep where
  | confirm (server : ServerDetails)
  | abort
  | retry
deriving DecidableEq

/-- Overall outcome of `wait_for_pre_boot`: the confirmed fingerprint, the
`UnlockAbortedError` raise, or the `SystemUnreachableError` raise. -/
inductive PreBootOutcome where
  | confirmed (server : ServerDetails)
  | aborted
  | unreachable
deriving DecidableEq

/-- The classification chain of one `wait_for_pre_boot` iteration
(remote_unlock.py lines 952-980): first the known-host-key comparison
(both sets non-empty: confirm on intersection, otherwise log and retry),
then the Dropbear banner match, then the OpenSSH banner match with the
interactive confirmation prompt, otherwise fall through to the timeout
check. -/
def classifyPreBoot (knownKeys : Finset String) (interactive operatorConfirms : Bool)
    (server : ServerDetails) : PreStep :=
  if server.host_keys ≠ ∅ ∧ knownKeys ≠ ∅ then
    if server.host_keys ∩ knownKeys ≠ ∅ then .confirm server else .retry
  else if server.matchHeader "dropbear" then .confirm server
  else if server.matchHeader "openssh" then
    if interactive && !operatorConfirms then .abort else .confirm server
  else .retry

/-- The retry loop of `wait_for_pre_boot` (lines 947-988) over a finite
trace of probes, threading the elapsed time at the start of the iteration;
`none` means the trace ended before the loop did.  The timeout comparison
`method_timer.elapsed_time >= connect_timeout` is evaluated after the
probe, and the sleep pads the iteration to `retryInterval`. -/
def waitForPreBootAux (cfg : PreBootConfig) :
    List PreProbe → Nat → Option (PreBootOutcome × Nat)
  | [], _ => none
  | p :: rest, start =>
    match classifyPreBoot cfg.knownKeys cfg.interactive p.operatorConfirms p.server with
    | .confirm s => some (.confirmed s, start + p.duration)
    | .abort => some (.aborted, start + p.duration)
    | .retry =>
      if cfg.connectTimeout ≤ start + p.duration then
        some (.unreachable, start + p.duration)
      else waitForPreBootAux cfg rest (start + max p.duration cfg.retryInterval)

/-- Result of one classification pass inside `wait_for_post_boot`: which
`break` fired (host-key change, header change, reachability) or fall
through to the timeout check. -/
inductive PostStep where
  | keyTransition (post : ServerDetails)
  | headerTransition
  | reachable
  | keepWaiting
deriving DecidableEq

/-- The session parameters consulted by `wait_for_post_boot`: whether the
pre-boot and post-boot profiles use the same port (which enables the
header comparison), and the `boot_timeout` and `retry_interval` options. -/
structure PostBootConfig where
  samePort : Bool
  bootTimeout : Nat
  retryInterval : Nat
deriving DecidableEq

/-- One iteration of the post-boot wait loop as observed from outside: the
fingerprint a scan would return, whether `test_ssh_connection` against the
post-boot profile would succeed, and how long the iteration probe took. -/
structure PostProbe where
  server : ServerDetails
  canReach : Bool
  duration : Nat
deriving DecidableEq

/-- Overall outcome of `wait_for_post_boot`: the detected transition, or
the `BootTimeoutError` raise. -/
inductive PostBootOutcome where
  | booted (step : PostStep)
  | bootTimedOut
deriving DecidableEq

/-- The detection chain of one `wait_for_post_boot` iteration
(remote_unlock.py lines 908-925).  With `check_keys` being baseline host
keys non-empty and `check_headers` being equal port numbers: scan and
break on a different non-empty host-key set, else break on a changed
non-empty header when ports match, else (when neither check applies) break
on raw reachability, otherwise fall through to the timeout check. -/
def classifyPostBoot (samePort : Bool) (pre post : ServerDetails) (canReach : Bool) : PostStep :=
  if samePort = true ∨ pre.host_keys ≠ ∅ then
    if pre.host_keys ≠ ∅ ∧ post.host_keys ≠ ∅ ∧ post.host_keys ≠ pre.host_keys then
      .keyTransition post
    else if samePort = true ∧ pre.header ≠ "" ∧ post.header ≠ "" ∧ post.header ≠ pre.header then
      .headerTransition
    else .keepWaiting
  else if canReach = true then .reachable
  else .keepWaiting

/-- The retry loop of `wait_for_post_boot` (lines 896-932) over a finite
trace of probes, with the same time model as `waitForPreBootAux`: the
timeout comparison uses `boot_timeout`, and each iteration is padded to
`retryInterval` by the trailing sleep. -/
def waitForPostBootAux (cfg : PostBootConfig) (pre : ServerDetails) :
    List PostProbe → Nat → Option (PostBootOutcome × Nat)
  | [], _ => none
  | p :: rest, start =>
    match classifyPostBoot cfg.samePort pre p.server p.canReach with
    | .keepWaiting =>
      if cfg.bootTimeout ≤ start + p.duration then
        some (.bootTimedOut, start + p.duration)
      else waitForPostBootAux cfg pre rest (start + max p.duration cfg.retryInterval)
    | step => some (.booted step, start + p.duration)

/-- The remote actions `offer_password` can perform, in the order the
source performs them. -/
inductive UnlockAction where
  | writeToNamedPipe
  | killInteractivePrompt
  | createKeyScript
  | runCryptrootProgram (interactive : Bool)
  | killEmergencyShell
deriving DecidableEq

/-- The state `offer_password` consults: the configured password, the
three capability probes (`have_named_pipe`, `have_cryptroot_config`,
`have_cryptroot_program`) and the three configured pathnames they test. -/
structure DeliveryEnv where
  password : Option String
  haveNamedPipe : Bool
  haveCryptrootConfig : Bool
  haveCryptrootProgram : Bool
  namedPipe : String
  cryptrootConfig : String
  cryptrootProgram : String
deriving DecidableEq

/-- Outcome of `offer_password`: normal return, or the
`UnsupportedSystemError` raise carrying its message. -/
inductive DeliveryResult where
  | delivered
  | unsupportedSystemError (msg : String)
deriving DecidableEq

/-- Closing words of the `UnsupportedSystemError` message. -/
def missingTail : String :=
  " are all missing. Could it be that the system has already booted and we do not need to do anything?"

/-- The `UnsupportedSystemError` message built at remote_unlock.py lines
776-780, naming the three missing paths.  The quoting punctuation of the
original format string around each path is omitted; the three pathnames
appear verbatim. -/
def unsupportedSystemMessage (env : DeliveryEnv) : String :=
  "The named pipe " ++ env.namedPipe ++ ", configuration file " ++ env.cryptrootConfig
    ++ " and program file " ++ env.cryptrootProgram ++ missingTail

/-- Embedding of `EncryptedSystem.offer_password` (lines 717-780): when a
password is configured (non-empty), try the named pipe, then the
cryptroot configuration (key-script sequence), then the interactive
cryptroot run; without a password skip both non-interactive mechanisms and
go straight to the interactive run; raise `UnsupportedSystemError` when no
capability probe succeeded.  The second component is the list of remote
actions performed, in order. -/
def offer_password (env : DeliveryEnv) : DeliveryResult × List UnlockAction :=
  if pyTruthy env.password then
    if env.haveNamedPipe then
      (.delivered, [.writeToNamedPipe])
    else if env.haveCryptrootConfig then
      (.delivered, [.killInteractivePrompt, .createKeyScript,
                    .runCryptrootProgram false, .killEmergencyShell])
    else if env.haveCryptrootProgram then
      (.delivered, [.killInteractivePrompt, .runCryptrootProgram true, .killEmergencyShell])
    else
      (.unsupportedSystemError (unsupportedSystemMessage env), [])
  else
    if env.haveCryptrootProgram then
      (.delivered, [.killInteractivePrompt, .runCryptrootProgram true, .killEmergencyShell])
    else
      (.unsupportedSystemError (unsupportedSystemMessage env), [])

/-- How the body of the `with EncryptedSystem(...)` block ended: normal
completion or a raised error (phase detection or delivery failures
included). -/
inductive SessionOutcome where
  | ok
  | raised (message : String)
deriving DecidableEq

/-- Embedding of the `EncryptedSystem` context-manager lifecycle
(`__enter__` at line 604 creates the temporary control directory,
`__exit__` at line 609 removes it).  The filesystem is the set of existing
paths; the body is an arbitrary session (it may itself create or remove
paths, and may end in either outcome), and `__exit__` runs on every exit
path of the `with` statement. -/
def encryptedSystemScope (fs : Finset String) (controlDirectory : String)
    (body : Finset String → Finset String × SessionOutcome) :
    Finset String × SessionOutcome :=
  ((body (insert controlDirectory fs)).1.erase controlDirectory,
   (body (insert controlDirectory fs)).2)

/-- The option value `store_host_keys` writes for a fingerprint: the
newline-joined sorted host keys. -/
def joinedHostKeys (server : ServerDetails) : String :=
  String.intercalate "\n" (server.host_keys.sort (· ≤ ·))

/-- The host-key INI file on disk as `store_host_keys` sees it: the
options of the session's configuration section, plus a count of the write
calls performed on it. -/
structure HostKeyFile where
  options : List (String × String)
  writeCount : Nat
deriving DecidableEq

/-- Set one option in the stored section, overwriting a previous value. -/
def setStoredOption (opts : List (String × String)) (key value : String) :
    List (String × String) :=
  opts.filter (fun kv => kv.1 != key) ++ [(key, value)]

/-- Embedding of `EncryptedSystem.store_host_keys` (lines 847-872).
Without a configuration section nothing is stored.  Otherwise the two
option values are computed from the fingerprints and compared against
`config`, the session's cached configuration dictionary (a lazy property:
loaded once and never refreshed by a write); only on a mismatch is the INI
file rewritten with the new values.  The `all(...)` guard over the two
options is unrolled into the conjunction. -/
def store_host_keys (configSection : Option String) (config : List (String × String))
    (preServer postServer : ServerDetails) (st : HostKeyFile) : HostKeyFile :=
  match configSection with
  | none => st
  | some _ =>
    if config.lookup "pre-boot-host-keys" = some (joinedHostKeys preServer) ∧
        config.lookup "post-boot-host-keys" = some (joinedHostKeys postServer) then
      st
    else
      { options := setStoredOption
          (setStoredOption st.options "pre-boot-host-keys" (joinedHostKeys preServer))
          "post-boot-host-keys" (joinedHostKeys postServer),
        writeCount := st.writeCount + 1 }

/-- One line of the `ps` listing as scanned by `find_process_id` (lines
650-666): tokens are whitespace-split; a line yields a pid when it has at
least two tokens, the first token is all digits, the program name occurs
among the tokens, and the pid is not 1. -/
def psLinePid (program : String) (line : String) : Option Nat :=
  match pySplit line with
  | t0 :: t1 :: rest =>
    if (t0.data ≠ [] ∧ t0.data.all Char.isDigit) ∧
        program ∈ (t0 :: t1 :: rest) ∧ charsToNatAux t0.data 0 ≠ 1 then
      some (charsToNatAux t0.data 0)
    else none
  | _ => none

/-- Embedding of `EncryptedSystem.find_process_id`: the first line of the
listing that yields a pid, or `none`. -/
def find_process_id (program : String) (listing : String) : Option Nat :=
  ((pyLines listing).filterMap (psLinePid program)).head?

/-- The process id the `kill -9` of `kill_interactive_prompt` (lines
699-715) would target, given the configured cryptroot program name and the
`ps` listing; `if pid:` makes both `None` and 0 skip the kill. -/
def kill_interactive_prompt_target (cryptrootProgram listing : String) : Option Nat :=
  match find_process_id cryptrootProgram listing with
  | some pid => if pid ≠ 0 then some pid else none
  | none => none

/-- The process id the `kill -9` of `kill_emergency_shell` (lines 678-697)
would target: the same lookup with the fixed program name `/bin/sh`. -/
def kill_emergency_shell_target (listing : String) : Option Nat :=
  match find_process_id "/bin/sh" listing with
  | some pid => if pid ≠ 0 then some pid else none
  | none => none

/-- A fingerprint whose header names OpenSSH and which carries no host
keys, as an endpoint already running the full operating system presents
it. -/
def opensshFingerprint : ServerDetails := ⟨"SSH-2.0-OpenSSH_7.4", ∅⟩

/-- A probe of an endpoint that is never classifiable: empty header, no
host keys. -/
def unreachableProbe : PreProbe := ⟨⟨"", ∅⟩, 0, false⟩

/-- An unclassifiable probe taking one time unit. -/
def slowRetryProbe : PreProbe := ⟨⟨"", ∅⟩, 1, false⟩

/-- A post-boot wait configuration with differing ports, boot timeout 300
and retry interval 1. -/
def keyDiffCfg : PostBootConfig := ⟨false, 300, 1⟩

/-- A baseline fingerprint whose only host key is `a`. -/
def fpA : ServerDetails := ⟨"", {"a"}⟩

/-- An observed fingerprint whose only host key is `b`. -/
def fpB : ServerDetails := ⟨"", {"b"}⟩

/-- A delivery environment with a configured secret and all three
artifacts present. -/
def allArtifactsEnv : DeliveryEnv :=
  ⟨some "correct-horse", true, true, true,
    "/lib/cryptsetup/passfifo", "/conf/conf.d/cryptroot", "/scripts/local-top/cryptroot"⟩

/-- A delivery environment with a configured secret but none of the three
artifacts present. -/
def bareEnv : DeliveryEnv :=
  ⟨some "correct-horse", false, false, false,
    "/lib/cryptsetup/passfifo", "/conf/conf.d/cryptroot", "/scripts/local-top/cryptroot"⟩

/-- A delivery environment with all three artifacts present but no secret
configured. -/
def noSecretEnv : DeliveryEnv :=
  ⟨none, true, true, true,
    "/lib/cryptsetup/passfifo", "/conf/conf.d/cryptroot", "/scripts/local-top/cryptroot"⟩

/-- A two-line `ps` listing: init runs the cryptroot prompt, process 42 is
the emergency shell. -/
def psListing : String :=
  "  1 root /scripts/local-top/cryptroot\n 42 root /bin/sh -i"

/-- Concatenation of strings is associative. -/
theorem string_append_assoc (a b c : String) : a ++ b ++ c = a ++ (b ++ c) := by
  rcases a with ⟨la⟩
  rcases b with ⟨lb⟩
  rcases c with ⟨lc⟩
  show String.mk (la ++ lb ++ lc) = String.mk (la ++ (lb ++ lc))
  rw [List.append_assoc]

/-- Claim C7: in pre-boot detection, when the configured known-keys set
and the probed host-key set are both non-empty, the phase is confirmed
pre-boot iff their intersection is non-empty; a non-empty,
non-intersecting probed key set is neither a hard failure nor a fall
through to banner matching, the iteration just falls to the retry path. -/
theorem wait_for_pre_boot_known_keys_iff (knownKeys : Finset String)
    (interactive operatorConfirms : Bool) (server : ServerDetails)
    (hserver : server.host_keys ≠ ∅) (hknown : knownKeys ≠ ∅) :
    (classifyPreBoot knownKeys interactive operatorConfirms server = .confirm server ↔
      server.host_keys ∩ knownKeys ≠ ∅) ∧
    (server.host_keys ∩ knownKeys = ∅ →
      classifyPreBoot knownKeys interactive operatorConfirms server = .retry) := by
  unfold classifyPreBoot
  rw [if_pos ⟨hserver, hknown⟩]
  constructor
  · by_cases h : server.host_keys ∩ knownKeys ≠ ∅ <;> simp [h]
  · intro h
    simp [h]

/-- Witness for C7 at a concrete fingerprint whose single host key is the
single known key. -/
theorem wait_for_pre_boot_known_keys_witness :
    (classifyPreBoot {"k"} false false ⟨"", {"k"}⟩ = .confirm ⟨"", {"k"}⟩ ↔
      (⟨"", {"k"}⟩ : ServerDetails).host_keys ∩ {"k"} ≠ ∅) ∧
    ((⟨"", {"k"}⟩ : ServerDetails).host_keys ∩ {"k"} = ∅ →
      classifyPreBoot {"k"} false false ⟨"", {"k"}⟩ = .retry) :=
  wait_for_pre_boot_known_keys_iff {"k"} false false ⟨"", {"k"}⟩ (by decide) (by decide)

/-- Claim C2, counterexample: with interactive mode disabled and an
OpenSSH banner observed (no known keys configured), `wait_for_pre_boot`
does not abort: it breaks out of the loop and returns the fingerprint as
confirmed, so the claimed `UnlockAborted` outcome never occurs. -/
theorem wait_for_pre_boot_noninteractive_counterexample :
    waitForPreBootAux ⟨∅, false, 120, 1⟩ [⟨opensshFingerprint, 0, false⟩] 0
      = some (.confirmed opensshFingerprint, 0) ∧
    ∀ t, waitForPreBootAux ⟨∅, false, 120, 1⟩ [⟨opensshFingerprint, 0, false⟩] 0
      ≠ some (.aborted, t) := by
  have h : waitForPreBootAux ⟨∅, false, 120, 1⟩ [⟨opensshFingerprint, 0, false⟩] 0
      = some (.confirmed opensshFingerprint, 0) := by decide
  refine ⟨h, fun t hcon => ?_⟩
  rw [h] at hcon
  simp at hcon

/-- Claim C2 (amended): during pre-boot detection, when the probed banner
matches the OpenSSH signature and no known-key match resolved the phase:
with interactive mode enabled the operator is asked to confirm, and the
detection aborts with the `UnlockAborted` outcome exactly when the
operator declines; with interactive mode disabled the detection continues
without prompting, treating the fingerprint as confirmed, rather than
aborting. -/
theorem wait_for_pre_boot_openssh_amended (knownKeys : Finset String) (server : ServerDetails)
    (hkeys : ¬(server.host_keys ≠ ∅ ∧ knownKeys ≠ ∅))
    (hdropbear : server.matchHeader "dropbear" = false)
    (hopenssh : server.matchHeader "openssh" = true) :
    classifyPreBoot knownKeys true false server = .abort ∧
    classifyPreBoot knownKeys true true server = .confirm server ∧
    (∀ operatorConfirms,
      classifyPreBoot knownKeys false operatorConfirms server = .confirm server) := by
  refine ⟨?_, ?_, fun operatorConfirms => ?_⟩ <;>
    simp [classifyPreBoot, hkeys, hdropbear, hopenssh]

/-- Witness for the amended C2 at the concrete OpenSSH fingerprint with no
known keys configured. -/
theorem wait_for_pre_boot_openssh_witness :
    classifyPreBoot ∅ true false opensshFingerprint = .abort ∧
    classifyPreBoot ∅ true true opensshFingerprint = .confirm opensshFingerprint ∧
    (∀ operatorConfirms,
      classifyPreBoot ∅ false operatorConfirms opensshFingerprint
        = .confirm opensshFingerprint) :=
  wait_for_pre_boot_openssh_amended ∅ opensshFingerprint (by decide) (by decide) (by decide)

/-- Helper: when a probe is unclassifiable and the elapsed time at the
post-probe check has reached the connect timeout, the loop raises
`SystemUnreachable` at that elapsed time. -/
theorem preBootAux_raise (cfg : PreBootConfig) (p : PreProbe) (rest : List PreProbe)
    (start : Nat)
    (hc : classifyPreBoot cfg.knownKeys cfg.interactive p.operatorConfirms p.server = .retry)
    (ht : cfg.connectTimeout ≤ start + p.duration) :
    waitForPreBootAux cfg (p :: rest) start = some (.unreachable, start + p.duration) := by
  simp [waitForPreBootAux, hc, ht]

/-- Helper: on an unclassifiable trace long enough to exhaust the timeout,
the loop raises `SystemUnreachable`, and the elapsed time at the raise is
at most `connectTimeout + retryInterval + D` where `D` bounds the probe
durations.  The `start ≤ connectTimeout` invariant holds at entry and is
restored by the immediate-raise case whenever a sleep overshoots it. -/
theorem preBootAux_unreachable (cfg : PreBootConfig) (D : Nat) (probes : List PreProbe) :
    ∀ start : Nat,
      (∀ p ∈ probes,
        classifyPreBoot cfg.knownKeys cfg.interactive p.operatorConfirms p.server = .retry) →
      1 ≤ cfg.retryInterval →
      (∀ p ∈ probes, p.duration ≤ D) →
      cfg.connectTimeout + 1 ≤ start + probes.length →
      start ≤ cfg.connectTimeout →
      ∃ t, waitForPreBootAux cfg probes start = some (.unreachable, t) ∧
        t ≤ cfg.connectTimeout + cfg.retryInterval + D := by
  induction probes with
  | nil =>
    intro start _ _ _ hfuel hstart
    exfalso
    simp only [List.length_nil] at hfuel
    omega
  | cons p rest ih =>
    intro start hall hr hD hfuel hstart
    have hcp := hall p (List.mem_cons_self p rest)
    have hpD := hD p (List.mem_cons_self p rest)
    simp only [List.length_cons] at hfuel
    by_cases hT : cfg.connectTimeout ≤ start + p.duration
    · exact ⟨start + p.duration, preBootAux_raise cfg p rest start hcp hT, by omega⟩
    · have hstep : waitForPreBootAux cfg (p :: rest) start
          = waitForPreBootAux cfg rest (start + max p.duration cfg.retryInterval) := by
        simp [waitForPreBootAux, hcp, hT]
      by_cases hT2 : start + max p.duration cfg.retryInterval ≤ cfg.connectTimeout
      · obtain ⟨t, hres, hbound⟩ := ih (start + max p.duration cfg.retryInterval)
          (fun q hq => hall q (List.mem_cons_of_mem p hq)) hr
          (fun q hq => hD q (List.mem_cons_of_mem p hq)) (by omega) hT2
        exact ⟨t, by rw [hstep]; exact hres, hbound⟩
      · rcases rest with _ | ⟨q, rest2⟩
        · exfalso
          simp only [List.length_nil] at hfuel
          omega
        · have hcq := hall q (List.mem_cons_of_mem p (List.mem_cons_self q rest2))
          have hqD := hD q (List.mem_cons_of_mem p (List.mem_cons_self q rest2))
          refine ⟨start + max p.duration cfg.retryInterval + q.duration, ?_, by omega⟩
          rw [hstep]
          exact preBootAux_raise cfg q rest2 (start + max p.duration cfg.retryInterval) hcq
            (by omega)

/-- Claim C6, counterexample: with `connect_timeout` 10 and
`retry_interval` 8, probes of duration 1 that never classify make the
wait raise `SystemUnreachable` at elapsed time 17, which exceeds the
claimed bound of `connect_timeout` plus one probe duration (11): the
trailing sleep pads every iteration to the retry interval, and the padding
is not counted by the claimed bound. -/
theorem wait_for_pre_boot_timeout_bound_counterexample :
    waitForPreBootAux ⟨∅, false, 10, 8⟩ [slowRetryProbe, slowRetryProbe, slowRetryProbe] 0
      = some (.unreachable, 17) ∧ 10 + 1 < 17 :=
  ⟨by decide, by decide⟩

/-- Claim C6 (amended): for every endpoint that never becomes classifiable
(no banner match, no key match on any probe), `wait_for_pre_boot`
terminates within `connect_timeout + retry_interval` plus one probe
duration, raising `SystemUnreachable` — provided the retry interval is
positive (it defaults to one second) and the trace is long enough that
the loop cannot run out of probes first. -/
theorem wait_for_pre_boot_unreachable_amended (cfg : PreBootConfig) (D : Nat)
    (probes : List PreProbe)
    (hall : ∀ p ∈ probes,
      classifyPreBoot cfg.knownKeys cfg.interactive p.operatorConfirms p.server = .retry)
    (hr : 1 ≤ cfg.retryInterval)
    (hD : ∀ p ∈ probes, p.duration ≤ D)
    (hfuel : cfg.connectTimeout + 1 ≤ probes.length) :
    ∃ t, waitForPreBootAux cfg probes 0 = some (.unreachable, t) ∧
      t ≤ cfg.connectTimeout + cfg.retryInterval + D :=
  preBootAux_unreachable cfg D probes 0 hall hr hD (by omega) (Nat.zero_le _)

/-- Witness for the amended C6 on a concrete three-probe unclassifiable
trace with timeout 2 and retry interval 1. -/
theorem wait_for_pre_boot_unreachable_witness :
    ∃ t, waitForPreBootAux ⟨∅, false, 2, 1⟩
        [unreachableProbe, unreachableProbe, unreachableProbe] 0
      = some (.unreachable, t) ∧ t ≤ 2 + 1 + 0 :=
  wait_for_pre_boot_unreachable_amended ⟨∅, false, 2, 1⟩ 0
    [unreachableProbe, unreachableProbe, unreachableProbe]
    (by decide) (by decide) (by decide) (by decide)

/-- Claim C1, counterexample: two fingerprints whose host-key sets
intersect but are unequal still trigger the key-based transition, because
the code breaks on a *different* non-empty key set, not a disjoint one:
baseline `{a}` against observed `{a, b}` reports the key transition even
though the sets intersect. -/
theorem wait_for_post_boot_intersecting_counterexample :
    ((⟨"", {"a"}⟩ : ServerDetails).host_keys ∩
      (⟨"", {"a", "b"}⟩ : ServerDetails).host_keys ≠ ∅) ∧
    classifyPostBoot true ⟨"", {"a"}⟩ ⟨"", {"a", "b"}⟩ false
      = .keyTransition ⟨"", {"a", "b"}⟩ :=
  ⟨by decide, by decide⟩

/-- Claim C1 (amended): with baseline fingerprint A carrying host keys and
an observed fingerprint B with non-empty host keys, `wait_for_post_boot`
reports a key-based transition and stops waiting whenever the key sets are
disjoint (in fact whenever they differ); it does not report a key-based
transition when the key sets are equal.  Intersection is not the criterion
the code uses: difference is. -/
theorem wait_for_post_boot_key_diff_amended (cfg : PostBootConfig) (canReach : Bool)
    (A B : ServerDetails) (hA : A.host_keys ≠ ∅) (hB : B.host_keys ≠ ∅) :
    (A.host_keys ∩ B.host_keys = ∅ →
      classifyPostBoot cfg.samePort A B canReach = .keyTransition B ∧
      ∀ (rest : List PostProbe) (start d : Nat),
        waitForPostBootAux cfg A (⟨B, canReach, d⟩ :: rest) start
          = some (.booted (.keyTransition B), start + d)) ∧
    (A.host_keys = B.host_keys →
      classifyPostBoot cfg.samePort A B canReach ≠ .keyTransition B) := by
  constructor
  · intro hdisj
    have hne : B.host_keys ≠ A.host_keys := by
      intro h
      rw [h, Finset.inter_self] at hdisj
      exact hA hdisj
    have hcls : classifyPostBoot cfg.samePort A B canReach = .keyTransition B := by
      unfold classifyPostBoot
      rw [if_pos (Or.inr hA), if_pos ⟨hA, hB, hne⟩]
    exact ⟨hcls, fun rest start d => by simp [waitForPostBootAux, hcls]⟩
  · intro heq
    unfold classifyPostBoot
    rw [if_pos (Or.inr hA),
      if_neg (fun hcon => hcon.2.2 heq.symm)]
    split_ifs <;> simp

/-- Witness for the amended C1 at concrete disjoint singleton key sets. -/
theorem wait_for_post_boot_key_diff_witness :
    (fpA.host_keys ∩ fpB.host_keys = ∅ →
      classifyPostBoot keyDiffCfg.samePort fpA fpB false = .keyTransition fpB ∧
      ∀ (rest : List PostProbe) (start d : Nat),
        waitForPostBootAux keyDiffCfg fpA (⟨fpB, false, d⟩ :: rest) start
          = some (.booted (.keyTransition fpB), start + d)) ∧
    (fpA.host_keys = fpB.host_keys →
      classifyPostBoot keyDiffCfg.samePort fpA fpB false ≠ .keyTransition fpB) :=
  wait_for_post_boot_key_diff_amended keyDiffCfg false fpA fpB (by decide) (by decide)

/-- Claim C3: with a secret configured, `offer_password` tries the named
pipe before the key script before the interactive fallback; once an
earlier capability probe succeeds no later mechanism is attempted — in
particular a successful named-pipe probe means no process kill and no
key-script action is performed, and a successful key-script probe means
the interactive cryptroot run is not performed. -/
theorem offer_password_priority (env : DeliveryEnv) (hp : pyTruthy env.password = true) :
    (env.haveNamedPipe = true →
      offer_password env = (.delivered, [.writeToNamedPipe]) ∧
      UnlockAction.killInteractivePrompt ∉ (offer_password env).2 ∧
      UnlockAction.createKeyScript ∉ (offer_password env).2 ∧
      UnlockAction.killEmergencyShell ∉ (offer_password env).2) ∧
    (env.haveNamedPipe = false → env.haveCryptrootConfig = true →
      offer_password env = (.delivered, [.killInteractivePrompt, .createKeyScript,
        .runCryptrootProgram false, .killEmergencyShell]) ∧
      UnlockAction.runCryptrootProgram true ∉ (offer_password env).2) ∧
    (env.haveNamedPipe = false → env.haveCryptrootConfig = false →
      env.haveCryptrootProgram = true →
      offer_password env
        = (.delivered, [.killInteractivePrompt, .runCryptrootProgram true,
            .killEmergencyShell])) := by
  refine ⟨fun h1 => ?_, fun h1 h2 => ?_, fun h1 h2 h3 => ?_⟩
  · simp [offer_password, hp, h1]
  · simp [offer_password, hp, h1, h2]
  · simp [offer_password, hp, h1, h2, h3]

/-- Witness for C3: with the secret configured and the named pipe present,
only the pipe write happens. -/
theorem offer_password_priority_witness :
    (allArtifactsEnv.haveNamedPipe = true →
      offer_password allArtifactsEnv = (.delivered, [.writeToNamedPipe]) ∧
      UnlockAction.killInteractivePrompt ∉ (offer_password allArtifactsEnv).2 ∧
      UnlockAction.createKeyScript ∉ (offer_password allArtifactsEnv).2 ∧
      UnlockAction.killEmergencyShell ∉ (offer_password allArtifactsEnv).2) ∧
    (allArtifactsEnv.haveNamedPipe = false → allArtifactsEnv.haveCryptrootConfig = true →
      offer_password allArtifactsEnv = (.delivered, [.killInteractivePrompt, .createKeyScript,
        .runCryptrootProgram false, .killEmergencyShell]) ∧
      UnlockAction.runCryptrootProgram true ∉ (offer_password allArtifactsEnv).2) ∧
    (allArtifactsEnv.haveNamedPipe = false → allArtifactsEnv.haveCryptrootConfig = false →
      allArtifactsEnv.haveCryptrootProgram = true →
      offer_password allArtifactsEnv
        = (.delivered, [.killInteractivePrompt, .runCryptrootProgram true,
            .killEmergencyShell])) :=
  offer_password_priority allArtifactsEnv (by decide)

/-- Claim C4: when the named pipe, the cryptroot configuration file and
the cryptroot program are all absent, `offer_password` raises
`UnsupportedSystemError` with a message naming all three missing paths,
performing no action at all (whether or not a secret is configured). -/
theorem offer_password_unsupported (env : DeliveryEnv)
    (h1 : env.haveNamedPipe = false) (h2 : env.haveCryptrootConfig = false)
    (h3 : env.haveCryptrootProgram = false) :
    offer_password env = (.unsupportedSystemError (unsupportedSystemMessage env), []) ∧
    (∃ a b, unsupportedSystemMessage env = a ++ (env.namedPipe ++ b)) ∧
    (∃ a b, unsupportedSystemMessage env = a ++ (env.cryptrootConfig ++ b)) ∧
    (∃ a b, unsupportedSystemMessage env = a ++ (env.cryptrootProgram ++ b)) := by
  refine ⟨?_, ?_, ?_, ?_⟩
  · cases hp : pyTruthy env.password <;> simp [offer_password, hp, h1, h2, h3]
  · refine ⟨"The named pipe ", ", configuration file " ++ env.cryptrootConfig
      ++ " and program file " ++ env.cryptrootProgram ++ missingTail, ?_⟩
    simp [unsupportedSystemMessage, string_append_assoc]
  · refine ⟨"The named pipe " ++ env.namedPipe ++ ", configuration file ",
      " and program file " ++ env.cryptrootProgram ++ missingTail, ?_⟩
    simp [unsupportedSystemMessage, string_append_assoc]
  · refine ⟨"The named pipe " ++ env.namedPipe ++ ", configuration file "
      ++ env.cryptrootConfig ++ " and program file ", missingTail, ?_⟩
    simp [unsupportedSystemMessage, string_append_assoc]

/-- Witness for C4 at a concrete environment with all three artifacts
absent. -/
theorem offer_password_unsupported_witness :
    offer_password bareEnv
      = (.unsupportedSystemError (unsupportedSystemMessage bareEnv), []) ∧
    (∃ a b, unsupportedSystemMessage bareEnv = a ++ (bareEnv.namedPipe ++ b)) ∧
    (∃ a b, unsupportedSystemMessage bareEnv = a ++ (bareEnv.cryptrootConfig ++ b)) ∧
    (∃ a b, unsupportedSystemMessage bareEnv = a ++ (bareEnv.cryptrootProgram ++ b)) :=
  offer_password_unsupported bareEnv (by decide) (by decide) (by decide)

/-- Claim C5: with no secret configured, `offer_password` performs neither
the named-pipe write nor any key-script action even when those artifacts
are present; it goes straight to the interactive fallback when the
cryptroot program is present and raises `UnsupportedSystemError` when it
is absent. -/
theorem offer_password_no_secret (env : DeliveryEnv) (hp : pyTruthy env.password = false) :
    UnlockAction.writeToNamedPipe ∉ (offer_password env).2 ∧
    UnlockAction.createKeyScript ∉ (offer_password env).2 ∧
    (env.haveCryptrootProgram = true →
      offer_password env = (.delivered, [.killInteractivePrompt, .runCryptrootProgram true,
        .killEmergencyShell])) ∧
    (env.haveCryptrootProgram = false →
      offer_password env = (.unsupportedSystemError (unsupportedSystemMessage env), [])) := by
  refine ⟨?_, ?_, fun h => ?_, fun h => ?_⟩
  · cases hpr : env.haveCryptrootProgram <;> simp [offer_password, hp, hpr]
  · cases hpr : env.haveCryptrootProgram <;> simp [offer_password, hp, hpr]
  · simp [offer_password, hp, h]
  · simp [offer_password, hp, h]

/-- Witness for C5: without a secret, both non-interactive mechanisms are
skipped even though the pipe and the configuration file are present. -/
theorem offer_password_no_secret_witness :
    UnlockAction.writeToNamedPipe ∉ (offer_password noSecretEnv).2 ∧
    UnlockAction.createKeyScript ∉ (offer_password noSecretEnv).2 ∧
    (noSecretEnv.haveCryptrootProgram = true →
      offer_password noSecretEnv = (.delivered, [.killInteractivePrompt,
        .runCryptrootProgram true, .killEmergencyShell])) ∧
    (noSecretEnv.haveCryptrootProgram = false →
      offer_password noSecretEnv
        = (.unsupportedSystemError (unsupportedSystemMessage noSecretEnv), [])) :=
  offer_password_no_secret noSecretEnv (by decide)

/-- Claim C8: for every session executed as a scope, the temporary control
directory created on entry does not exist after the scope exits, for every
body — including bodies that end in a raised error (delivery or detection
failures) — and the body's outcome is passed through unchanged. -/
theorem control_directory_removed_on_exit (fs : Finset String) (controlDirectory : String)
    (body : Finset String → Finset String × SessionOutcome) :
    controlDirectory ∉ (encryptedSystemScope fs controlDirectory body).1 ∧
    (encryptedSystemScope fs controlDirectory body).2
      = (body (insert controlDirectory fs)).2 :=
  ⟨Finset.not_mem_erase _ _, rfl⟩

/-- Claim C9, counterexample: starting from an empty cached configuration,
calling `store_host_keys` twice in a row with identical fingerprints
writes twice — the second call is not a no-op, because the guard compares
against the cached configuration dictionary, which the first write did not
refresh. -/
theorem store_host_keys_double_save_counterexample :
    (store_host_keys (some "server") [] fpA fpB ⟨[], 0⟩).writeCount = 1 ∧
    (store_host_keys (some "server") [] fpA fpB
      (store_host_keys (some "server") [] fpA fpB ⟨[], 0⟩)).writeCount = 2 := by
  constructor <;> rfl

/-- Claim C9 (amended): `store_host_keys` under a configuration section is
a no-op exactly when the option values to be written already match the
session's cached configuration; since a write does not refresh that cache,
two consecutive identical calls both write unless the configuration
already contained the values before the first call. -/
theorem store_host_keys_noop_iff (section_ : String) (config : List (String × String))
    (preServer postServer : ServerDetails) (st : HostKeyFile) :
    store_host_keys (some section_) config preServer postServer st = st ↔
      (config.lookup "pre-boot-host-keys" = some (joinedHostKeys preServer) ∧
       config.lookup "post-boot-host-keys" = some (joinedHostKeys postServer)) := by
  unfold store_host_keys
  by_cases h : config.lookup "pre-boot-host-keys" = some (joinedHostKeys preServer) ∧
      config.lookup "post-boot-host-keys" = some (joinedHostKeys postServer)
  · rw [if_pos h]
    simp [h]
  · rw [if_neg h]
    constructor
    · intro he
      exact absurd (congrArg HostKeyFile.writeCount he) (by simp)
    · intro hc
      exact absurd hc h

/-- Helper for C10: a line that yields a pid yields one different from 1
whose token list contains the program name as a whole token. -/
theorem psLinePid_some (program line : String) (pid : Nat)
    (h : psLinePid program line = some pid) :
    pid ≠ 1 ∧ program ∈ pySplit line := by
  unfold psLinePid at h
  rcases hs : pySplit line with _ | ⟨t0, _ | ⟨t1, rest⟩⟩
  · simp only [hs] at h
    exact Option.noConfusion h
  · simp only [hs] at h
    exact Option.noConfusion h
  · simp only [hs] at h
    split_ifs at h with hc
    obtain ⟨_, hmem, hne⟩ := hc
    injection h with h
    subst h
    exact ⟨hne, hs ▸ hmem⟩

/-- Helper for C10: `find_process_id` only returns pids different from 1,
taken from a listing line containing the program name as a whole token. -/
theorem find_process_id_some (program listing : String) (pid : Nat)
    (h : find_process_id program listing = some pid) :
    pid ≠ 1 ∧ ∃ line ∈ pyLines listing, program ∈ pySplit line := by
  unfold find_process_id at h
  rcases hfm : (pyLines listing).filterMap (psLinePid program) with _ | ⟨x, xs⟩
  · rw [hfm] at h
    cases h
  · rw [hfm] at h
    have hx : x = pid := by
      simpa using h
    subst hx
    have hmem : x ∈ (pyLines listing).filterMap (psLinePid program) := by
      rw [hfm]
      exact List.mem_cons_self x xs
    rw [List.mem_filterMap] at hmem
    obtain ⟨line, hline, hsome⟩ := hmem
    obtain ⟨hne, htok⟩ := psLinePid_some program line x hsome
    exact ⟨hne, line, hline, htok⟩

/-- Claim C10: for every `ps` listing, `find_process_id` returns either no
process id or one strictly different from 1 whose line contains the
program name as a whole token; consequently the kill commands of
`kill_interactive_prompt` and `kill_emergency_shell` never target process
id 1. -/
theorem find_process_id_never_targets_init (program listing : String) :
    (∀ pid, find_process_id program listing = some pid →
      pid ≠ 1 ∧ ∃ line ∈ pyLines listing, program ∈ pySplit line) ∧
    kill_interactive_prompt_target program listing ≠ some 1 ∧
    kill_emergency_shell_target listing ≠ some 1 := by
  refine ⟨fun pid h => find_process_id_some program listing pid h, ?_, ?_⟩
  · unfold kill_interactive_prompt_target
    rcases hf : find_process_id program listing with _ | pid
    · simp
    · have h1 := (find_process_id_some program listing pid hf).1
      change (if pid ≠ 0 then some pid else none) ≠ some 1
      split_ifs <;> simp [h1]
  · unfold kill_emergency_shell_target
    rcases hf : find_process_id "/bin/sh" listing with _ | pid
    · simp
    · have h1 := (find_process_id_some "/bin/sh" listing pid hf).1
      change (if pid ≠ 0 then some pid else none) ≠ some 1
      split_ifs <;> simp [h1]

/-- Witness for C10: on the concrete listing, the lookup of `/bin/sh`
returns 42, which differs from 1 and occurs as a whole token of a line. -/
theorem find_process_id_never_targets_init_witness :
    (42 : Nat) ≠ 1 ∧ ∃ line ∈ pyLines psListing, "/bin/sh" ∈ pySplit line :=
  (find_process_id_never_targets_init "/bin/sh" psListing).1 42 (by decide)

end RemoteUnlock
